import Mathlib

/-!
Shallow embedding of the Google-adk-backend publish workflows.

The repository has three source files:
* `agents/instagram_poster.py` — `instagram_post_run` with a bounded
  readiness poll (5 attempts, 2 s sleeps), caption defaulting and a
  `success` field on every returned record;
* `agents/image_generator.py` — `resize_for_instagram` (center crop to a
  square, resize to 1080×1080, save under a suffix-tagged path) and a
  second `instagram_post_run` that resizes, uploads, creates a container
  and publishes immediately (no readiness poll, no caption defaulting,
  no `success` field), cleaning up the derived file on the success path;
* `firebase_config.py` — `initialize_firebase`, which raises
  `FileNotFoundError` / `ValueError` instead of returning a record.

External collaborators (Cloudinary, the Graph API, the filesystem and
`time.sleep`) are modelled as oracles: each remote call either raises
(`Except.error` with the exception text) or yields a response value.
Every model threads an explicit `Trace` recording the calls made, so that
call-count and ordering claims are statable.
-/

/-- Python truthiness of an optional string: `None` and `""` are falsy
(`os.getenv` results are tested with `if not x`). -/
def truthy : Option String → Bool
  | none => false
  | some s => !s.isEmpty

/-- A Graph API JSON response, as the code reads it: an optional `id`
field, an optional `error.message`, and the `str()` of the whole body
used as the fallback diagnostic. -/
structure GraphResp where
  id : Option String
  errMessage : Option String
  asStr : String
deriving Repr, DecidableEq

/-- `resp.get("error", {}).get("message", str(resp))`. -/
def errorMsgOf (r : GraphResp) : String :=
  r.errMessage.getD r.asStr

/-- The observable effects of one workflow invocation: how many times each
external endpoint was called, how many `time.sleep(2)` calls ran, the
caption sent in the container payload, the files written by the resizer,
and the cleanup attempts/removals. -/
structure Trace where
  uploadCalls : Nat := 0
  containerCalls : Nat := 0
  statusCalls : Nat := 0
  publishCalls : Nat := 0
  sleeps : Nat := 0
  sentCaption : Option String := none
  savedPaths : List String := []
  removeAttempts : Nat := 0
  removedPaths : List String := []
deriving Repr, DecidableEq

/-- Total number of network calls recorded in a trace (upload, container
creation, status polls, publish). -/
def networkCalls (t : Trace) : Nat :=
  t.uploadCalls + t.containerCalls + t.statusCalls + t.publishCalls

/-- The result dict shape shared by both `instagram_post_run` variants:
`post_status` is always present; the other keys are optional (`none`
models an absent key in the Python dict). -/
structure PostResult where
  post_status : String
  success : Option Bool := none
  media_id : Option String := none
  caption : Option String := none
  image_url : Option String := none
deriving Repr, DecidableEq

/-- Environment credentials read by both workflows
(`INSTAGRAM_ACCESS_TOKEN`, `INSTAGRAM_BUSINESS_ACCOUNT_ID`). -/
structure Env where
  access_token : Option String
  business_account_id : Option String
deriving Repr, DecidableEq

/-- External collaborators of `agents/instagram_poster.py`:
`os.path.exists`, `cloudinary.uploader.upload` (yielding the optional
`secure_url`), the container-creation POST (taking `image_url` and
`caption`), the status GET per attempt index (yielding the optional
`status_code`), and the publish POST (taking `creation_id`). -/
structure PosterOracle where
  fileExists : String → Bool
  upload : String → Except String (Option String)
  createContainer : String → String → Except String GraphResp
  getStatus : Nat → Except String (Option String)
  publishContainer : String → Except String GraphResp

/-- The default caption substituted for a blank caption in
`instagram_poster.instagram_post_run`. -/
def POSTER_DEFAULT_CAPTION : String :=
  "✨ Check out this beautiful handmade creation! 🎨 #handmade #artisan #craft"

/-- Python `not caption.strip()`: true iff every character of the caption
is whitespace (so the stripped string is empty). -/
def pyBlank (s : String) : Bool :=
  s.data.all Char.isWhitespace

/-- The caption actually used by the poster workflow:
`if not caption.strip(): caption = <default>`. -/
def effCaption (caption : String) : String :=
  if pyBlank caption then POSTER_DEFAULT_CAPTION else caption

/-- The record built by the poster's `except Exception as e` handler. -/
def exnResult (e : String) : PostResult :=
  { post_status := "Exception: " ++ e, success := some false }

/-- The readiness-poll loop of `instagram_poster.instagram_post_run`:

```python
for attempt in range(5):
    status_resp = requests.get(status_url)
    status = status_resp.json().get("status_code", "")
    if status == "FINISHED": break
    time.sleep(2)
```

Arguments: the status oracle, current attempt index, remaining
iterations, the current value of `status`, and the status-call and sleep
counters.  Returns the final `status` (or the raised exception) together
with the two counters.  A raising attempt still counts as one issued
status query. -/
def pollAux (get : Nat → Except String (Option String)) :
    Nat → Nat → String → Nat → Nat → Except String String × Nat × Nat
  | _, 0, last, calls, sleeps => (.ok last, calls, sleeps)
  | attempt, r + 1, _, calls, sleeps =>
    match get attempt with
    | .error e => (.error e, calls + 1, sleeps)
    | .ok sc =>
      if sc.getD "" = "FINISHED" then (.ok "FINISHED", calls + 1, sleeps)
      else pollAux get (attempt + 1) r (sc.getD "") (calls + 1) (sleeps + 1)

/-- Step 3 of the poster workflow: the publish POST and the mapping of
its response to the returned record. -/
def publishOutcome (caption image_url : String) (pr : Except String GraphResp) : PostResult :=
  match pr with
  | .error e => exnResult e
  | .ok presp =>
    match presp.id with
    | none =>
      { post_status := "Publish failed: " ++ errorMsgOf presp, success := some false }
    | some mid =>
      { post_status := "Successfully posted to Instagram!"
        success := some true
        media_id := some mid
        caption := some caption
        image_url := some image_url }

/-- `instagram_post_run` of `agents/instagram_poster.py`: credential and
file checks, caption defaulting, Cloudinary upload, container creation,
bounded readiness poll, publish; every exception inside the `try` is
mapped to an `Exception: …` record. -/
def poster_run (env : Env) (o : PosterOracle) (image_path caption0 : String) :
    PostResult × Trace :=
  if !truthy env.access_token || !truthy env.business_account_id then
    ({ post_status := "Missing Instagram API credentials.", success := some false }, {})
  else if image_path.isEmpty || !o.fileExists image_path then
    ({ post_status := "Image file not found: " ++ image_path, success := some false }, {})
  else
    let caption := effCaption caption0
    match o.upload image_path with
    | .error e => (exnResult e, { uploadCalls := 1 })
    | .ok su =>
      if !truthy su then
        ({ post_status := "Cloudinary upload failed.", success := some false },
         { uploadCalls := 1 })
      else
        let image_url := su.getD ""
        match o.createContainer image_url caption with
        | .error e =>
          (exnResult e,
           { uploadCalls := 1, containerCalls := 1, sentCaption := some caption })
        | .ok cresp =>
          match cresp.id with
          | none =>
            ({ post_status := "Container creation failed: " ++ errorMsgOf cresp,
               success := some false },
             { uploadCalls := 1, containerCalls := 1, sentCaption := some caption })
          | some container_id =>
            match pollAux o.getStatus 0 5 "" 0 0 with
            | (.error e, calls, sleeps) =>
              (exnResult e,
               { uploadCalls := 1, containerCalls := 1, sentCaption := some caption,
                 statusCalls := calls, sleeps := sleeps })
            | (.ok _, calls, sleeps) =>
              (publishOutcome caption image_url (o.publishContainer container_id),
               { uploadCalls := 1, containerCalls := 1, sentCaption := some caption,
                 statusCalls := calls, sleeps := sleeps, publishCalls := 1 })

/-- The status oracle at index `j` answered without raising and with a
`status_code` other than `FINISHED` (absent `status_code` reads as `""`). -/
def nonFinishedAt (get : Nat → Except String (Option String)) (j : Nat) : Prop :=
  ∃ v, get j = .ok v ∧ v.getD "" ≠ "FINISHED"

/-! ### Python `str.replace` and the derived-path computation -/

/-- One left-to-right, non-overlapping pass of Python `str.replace` over a
character list.  `skip = 0` means scanning mode; after emitting the
replacement for a match of length `n` the scanner drops the remaining
`n − 1` matched characters via the skip counter. -/
def replaceAux (pat rep : List Char) : List Char → Nat → List Char
  | [], _ => []
  | _ :: cs, skip + 1 => replaceAux pat rep cs skip
  | c :: cs, 0 =>
    if pat.length ≠ 0 ∧ (c :: cs).take pat.length = pat then
      rep ++ replaceAux pat rep cs (pat.length - 1)
    else
      c :: replaceAux pat rep cs 0

/-- Python `s.replace(pat, rep)` for a non-empty pattern. -/
def pyReplace (s pat rep : String) : String :=
  ⟨replaceAux pat.data rep.data s.data 0⟩

/-- `pat` occurs as a contiguous substring of the list. -/
def hasSub (pat : List Char) : List Char → Bool
  | [] => decide (pat = [])
  | c :: cs => decide ((c :: cs).take pat.length = pat) || hasSub pat cs

/-- `pat` occurs as a contiguous substring of the string. -/
def hasSubStr (pat s : String) : Bool :=
  hasSub pat.data s.data

/-- The derived-file path of `resize_for_instagram`:
`image_path.replace('.png', '_instagram.png').replace('.jpg', '_instagram.jpg')`. -/
def resizedPath (image_path : String) : String :=
  pyReplace (pyReplace image_path ".png" "_instagram.png") ".jpg" "_instagram.jpg"

/-! ### `resize_for_instagram` and the image_generator workflow -/

/-- The smaller of the two pixel dimensions (`min_dimension`). -/
def min_dimension (width height : Nat) : Nat := min width height

/-- The center-crop box of `resize_for_instagram`:
`left = (width − m) // 2`, `top = (height − m) // 2`,
box `(left, top, left + m, top + m)` with `m = min(width, height)`. -/
def cropBox (width height : Nat) : Nat × Nat × Nat × Nat :=
  let m := min_dimension width height
  let left := (width - m) / 2
  let top := (height - m) / 2
  (left, top, left + m, top + m)

/-- The fixed output resolution passed to `img_cropped.resize`. -/
def instagramSize : Nat × Nat := (1080, 1080)

/-- Outcome of `resize_for_instagram`: the returned path, the list of
files written, and the crop box that was computed (when the image could
be opened). -/
structure ResizeResult where
  path : String
  saved : List String
  box : Option (Nat × Nat × Nat × Nat)
deriving Repr, DecidableEq

/-- `resize_for_instagram(image_path)` of `agents/image_generator.py`:
open the image (may raise), center-crop via `cropBox`, resize to
`instagramSize`, save under `resizedPath image_path` (may raise);
any exception is caught and the ORIGINAL path is returned. -/
def resize_for_instagram (openImage : String → Except String (Nat × Nat))
    (save : String → Except String Unit) (image_path : String) : ResizeResult :=
  match openImage image_path with
  | .error _ => ⟨image_path, [], none⟩
  | .ok wh =>
    let box := cropBox wh.1 wh.2
    let rp := resizedPath image_path
    match save rp with
    | .error _ => ⟨image_path, [], some box⟩
    | .ok _ => ⟨rp, [rp], some box⟩

/-- External collaborators of `agents/image_generator.py`:
`os.path.exists`, `PIL.Image.open` (yielding the pixel dimensions),
`img_resized.save`, `cloudinary.uploader.upload`, the container POST,
the publish POST, and whether `os.remove` raises on a given path. -/
structure GenOracle where
  fileExists : String → Bool
  openImage : String → Except String (Nat × Nat)
  save : String → Except String Unit
  upload : String → Except String (Option String)
  createContainer : String → String → Except String GraphResp
  publishContainer : String → Except String GraphResp
  removeRaises : String → Bool

/-- The record built by the generator's `except Exception as e` handler
(note: no `success` key). -/
def genExnResult (e : String) : PostResult :=
  { post_status := "Exception: " ++ e }

/-- `instagram_post_run` of `agents/image_generator.py`: credential and
file checks, geometry normalization (failure tolerated), Cloudinary
upload, container creation, immediate publish (no readiness poll, the
caller's caption sent unchanged), cleanup of the derived file on the
success path only (`os.remove` errors swallowed by a bare `except`);
none of the returned records carries a `success` key. -/
def generator_run (env : Env) (o : GenOracle) (image_path caption : String) :
    PostResult × Trace :=
  if !truthy env.access_token || !truthy env.business_account_id then
    ({ post_status := "Missing Instagram API credentials." }, {})
  else if image_path.isEmpty || !o.fileExists image_path then
    ({ post_status := "Image file not found: " ++ image_path }, {})
  else
    let rr := resize_for_instagram o.openImage o.save image_path
    match o.upload rr.path with
    | .error e => (genExnResult e, { savedPaths := rr.saved, uploadCalls := 1 })
    | .ok su =>
      if !truthy su then
        ({ post_status := "Cloudinary upload failed." },
         { savedPaths := rr.saved, uploadCalls := 1 })
      else
        let image_url := su.getD ""
        match o.createContainer image_url caption with
        | .error e =>
          (genExnResult e,
           { savedPaths := rr.saved, uploadCalls := 1, containerCalls := 1,
             sentCaption := some caption })
        | .ok cresp =>
          match cresp.id with
          | none =>
            ({ post_status := "Upload failed: " ++ errorMsgOf cresp },
             { savedPaths := rr.saved, uploadCalls := 1, containerCalls := 1,
               sentCaption := some caption })
          | some container_id =>
            match o.publishContainer container_id with
            | .error e =>
              (genExnResult e,
               { savedPaths := rr.saved, uploadCalls := 1, containerCalls := 1,
                 sentCaption := some caption, publishCalls := 1 })
            | .ok presp =>
              match presp.id with
              | none =>
                ({ post_status := "Publish failed: " ++ errorMsgOf presp },
                 { savedPaths := rr.saved, uploadCalls := 1, containerCalls := 1,
                   sentCaption := some caption, publishCalls := 1 })
              | some mid =>
                let doClean := (rr.path != image_path) && o.fileExists rr.path
                let ra := if doClean then 1 else 0
                let rem := if doClean && !o.removeRaises rr.path then [rr.path] else []
                ({ post_status := "Successfully posted to Instagram!"
                   media_id := some mid
                   caption := some caption
                   image_url := some image_url },
                 { savedPaths := rr.saved, uploadCalls := 1, containerCalls := 1,
                   sentCaption := some caption, publishCalls := 1,
                   removeAttempts := ra, removedPaths := rem })

/-! ### `firebase_config.initialize_firebase` -/

/-- The Render secret-file path checked first by `initialize_firebase`. -/
def RENDER_SECRET_PATH : String := "/etc/secrets/FIREBASE_SERVICE_ACCOUNT_KEY"

/-- The default local service-account path. -/
def DEFAULT_LOCAL_KEY_PATH : String := "keys/FirebaseServiceAccountKey.json"

/-- The world `initialize_firebase` observes: whether `firebase_admin._apps`
is non-empty, which paths exist, and the two environment variables. -/
structure FbWorld where
  appsInitialized : Bool
  pathExists : String → Bool
  envServiceAccountPath : Option String
  envStorageBucket : Option String

/-- The exceptions `initialize_firebase` can raise. -/
inductive FbErr where
  | fileNotFound (msg : String)
  | valueError (msg : String)
deriving Repr, DecidableEq

/-- The effects of a completed `initialize_firebase` call: which paths
were tested with `Path(...).exists()`, and the storage bucket the app
was initialized with (`none` = no `initialize_app` call). -/
structure FbEffects where
  pathChecks : List String := []
  appInit : Option String := none
deriving Repr, DecidableEq

/-- The local fallback path:
`os.getenv("FIREBASE_SERVICE_ACCOUNT_PATH", "keys/FirebaseServiceAccountKey.json")`. -/
def fbLocalPath (w : FbWorld) : String :=
  w.envServiceAccountPath.getD DEFAULT_LOCAL_KEY_PATH

/-- The `ValueError` message for a missing storage bucket. -/
def FB_BUCKET_ERROR_MSG : String :=
  "FIREBASE_STORAGE_BUCKET not found in environment variables. " ++
  "Please check your .env or Render environment variables."

/-- The `FileNotFoundError` message when no key file exists. -/
def fbKeyMissingMsg (w : FbWorld) : String :=
  "Service account key not found in either " ++ RENDER_SECRET_PATH ++
  " or " ++ fbLocalPath w ++ ". " ++
  "Please upload to Render Secret Files or add it locally."

/-- The tail of `initialize_firebase` once a key path was selected:
read `FIREBASE_STORAGE_BUCKET`, raise `ValueError` if falsy, otherwise
initialize the app with that bucket. -/
def fbFinish (w : FbWorld) (checks : List String) : Except FbErr FbEffects :=
  if truthy w.envStorageBucket then
    .ok { pathChecks := checks, appInit := w.envStorageBucket }
  else
    .error (.valueError FB_BUCKET_ERROR_MSG)

/-- `initialize_firebase()` of `firebase_config.py` (also executed once at
module import): a no-op when an app is already initialized; otherwise
pick the Render secret path if it exists, else the local fallback path
if it exists, else raise `FileNotFoundError`; then raise `ValueError`
when `FIREBASE_STORAGE_BUCKET` is falsy, else initialize the app. -/
def initialize_firebase (w : FbWorld) : Except FbErr FbEffects :=
  if w.appsInitialized then .ok {}
  else
    if w.pathExists RENDER_SECRET_PATH then
      fbFinish w [RENDER_SECRET_PATH]
    else if w.pathExists (fbLocalPath w) then
      fbFinish w [RENDER_SECRET_PATH, fbLocalPath w]
    else
      .error (.fileNotFound (fbKeyMissingMsg w))

/-! ### Concrete fixtures used by witnesses and counterexamples -/

/-- Environment with both Instagram credentials present. -/
def wEnv : Env := ⟨some "token123", some "acct456"⟩

/-- Environment missing the access token. -/
def noTokenEnv : Env := ⟨none, some "acct456"⟩

/-- Poster oracle whose status endpoint always reports `IN_PROGRESS`
(never `FINISHED`) and whose other calls all succeed. -/
def slowPosterOracle : PosterOracle where
  fileExists := fun _ => true
  upload := fun _ => .ok (some "https://res.example/u.png")
  createContainer := fun _ _ => .ok ⟨some "c1", none, ""⟩
  getStatus := fun _ => .ok (some "IN_PROGRESS")
  publishContainer := fun _ => .ok ⟨some "m1", none, ""⟩

/-- Generator oracle for a fully successful run on an 800×600 image. -/
def okGenOracle : GenOracle where
  fileExists := fun _ => true
  openImage := fun _ => .ok (800, 600)
  save := fun _ => .ok ()
  upload := fun _ => .ok (some "https://res.example/u.png")
  createContainer := fun _ _ => .ok ⟨some "c1", none, ""⟩
  publishContainer := fun _ => .ok ⟨some "m1", none, ""⟩
  removeRaises := fun _ => false

/-- Generator oracle identical to `okGenOracle` except that the publish
call reports no id. -/
def failPublishGenOracle : GenOracle :=
  { okGenOracle with
    publishContainer := fun _ => .ok ⟨none, some "Media ID is not available", "resp"⟩ }

/-- A world in which a Firebase app is already initialized. -/
def fbInitializedWorld : FbWorld := ⟨true, fun _ => false, none, none⟩

/-- A world with no app, no key file anywhere, and a bucket configured. -/
def fbNoKeyWorld : FbWorld := ⟨false, fun _ => false, none, some "bucket.appspot.com"⟩

/-- A world with no app, the Render key file present, and no bucket. -/
def fbNoBucketWorld : FbWorld :=
  ⟨false, fun p => p == RENDER_SECRET_PATH, none, none⟩

/-! ### Poll-loop lemmas -/

/-- The poll loop issues at most `r` further status queries and `r`
further sleeps. -/
lemma pollAux_upper (get : Nat → Except String (Option String)) :
    ∀ r a last c s, (pollAux get a r last c s).2.1 ≤ c + r ∧
      (pollAux get a r last c s).2.2 ≤ s + r := by
  intro r
  induction r with
  | zero => intro a last c s; simp [pollAux]
  | succ n ih =>
    intro a last c s
    simp only [pollAux]
    cases h : get a with
    | error e => dsimp only; omega
    | ok sc =>
      dsimp only
      by_cases hf : sc.getD "" = "FINISHED"
      · rw [if_pos hf]; dsimp only; omega
      · rw [if_neg hf]
        have := ih (a + 1) (sc.getD "") (c + 1) (s + 1)
        omega

/-- The status-call counter never decreases. -/
lemma pollAux_calls_mono (get : Nat → Except String (Option String)) :
    ∀ r a last c s, c ≤ (pollAux get a r last c s).2.1 := by
  intro r
  induction r with
  | zero => intro a last c s; simp [pollAux]
  | succ n ih =>
    intro a last c s
    simp only [pollAux]
    cases h : get a with
    | error e => dsimp only; omega
    | ok sc =>
      dsimp only
      by_cases hf : sc.getD "" = "FINISHED"
      · rw [if_pos hf]; dsimp only; omega
      · rw [if_neg hf]
        have := ih (a + 1) (sc.getD "") (c + 1) (s + 1)
        omega

/-- A loop with at least one remaining iteration issues at least one
status query. -/
lemma pollAux_calls_pos (get : Nat → Except String (Option String))
    (r a : Nat) (last : String) (c s : Nat) :
    c + 1 ≤ (pollAux get a (r + 1) last c s).2.1 := by
  simp only [pollAux]
  cases h : get a with
  | error e => dsimp only; omega
  | ok sc =>
    dsimp only
    by_cases hf : sc.getD "" = "FINISHED"
    · rw [if_pos hf]
    · rw [if_neg hf]
      have := pollAux_calls_mono get r (a + 1) (sc.getD "") (c + 1) (s + 1)
      omega

/-- If no attempt in the window reports `FINISHED`, the loop runs all `r`
iterations, issuing `r` queries and `r` sleeps. -/
lemma pollAux_exhaust (get : Nat → Except String (Option String)) :
    ∀ r a last c s, (∀ j, j < r → nonFinishedAt get (a + j)) →
      ∃ st, pollAux get a r last c s = (.ok st, c + r, s + r) := by
  intro r
  induction r with
  | zero => intro a last c s _; exact ⟨last, by simp [pollAux]⟩
  | succ n ih =>
    intro a last c s h
    obtain ⟨v, hv, hnf⟩ := h 0 (Nat.succ_pos n)
    rw [Nat.add_zero] at hv
    have h' : ∀ j, j < n → nonFinishedAt get (a + 1 + j) := by
      intro j hj
      have := h (j + 1) (by omega)
      rwa [show a + (j + 1) = a + 1 + j by omega] at this
    obtain ⟨st, hst⟩ := ih (a + 1) (v.getD "") (c + 1) (s + 1) h'
    refine ⟨st, ?_⟩
    simp only [pollAux, hv]
    rw [if_neg hnf, hst]
    rw [show c + 1 + n = c + (n + 1) by omega, show s + 1 + n = s + (n + 1) by omega]

/-- If attempt `i` is the first to report `FINISHED`, the loop stops
there: `i + 1` queries, `i` sleeps. -/
lemma pollAux_hit (get : Nat → Except String (Option String)) :
    ∀ i r a last c s, i < r →
      (∀ j, j < i → nonFinishedAt get (a + j)) →
      (∃ v, get (a + i) = .ok v ∧ v.getD "" = "FINISHED") →
      pollAux get a r last c s = (.ok "FINISHED", c + i + 1, s + i) := by
  intro i
  induction i with
  | zero =>
    intro r a last c s hir _ hfin
    obtain ⟨v, hv, hf⟩ := hfin
    rw [Nat.add_zero] at hv
    obtain ⟨r', rfl⟩ : ∃ r', r = r' + 1 := ⟨r - 1, by omega⟩
    simp only [pollAux, hv]
    rw [if_pos hf]
    simp
  | succ n ih =>
    intro r a last c s hir hbef hfin
    obtain ⟨r', rfl⟩ : ∃ r', r = r' + 1 := ⟨r - 1, by omega⟩
    obtain ⟨v, hv, hnf⟩ := hbef 0 (Nat.succ_pos n)
    rw [Nat.add_zero] at hv
    have hbef' : ∀ j, j < n → nonFinishedAt get (a + 1 + j) := by
      intro j hj
      have := hbef (j + 1) (by omega)
      rwa [show a + (j + 1) = a + 1 + j by omega] at this
    have hfin' : ∃ w, get (a + 1 + n) = .ok w ∧ w.getD "" = "FINISHED" := by
      rwa [show a + 1 + n = a + (n + 1) by omega]
    simp only [pollAux, hv]
    rw [if_neg hnf, ih r' (a + 1) (v.getD "") (c + 1) (s + 1) (by omega) hbef' hfin']
    rw [show c + 1 + n + 1 = c + (n + 1) + 1 by omega, show s + 1 + n = s + (n + 1) by omega]

/-! ### String-replace lemmas -/

/-- Skip mode just drops the skipped characters. -/
lemma replaceAux_skip (pat rep : List Char) :
    ∀ l k, replaceAux pat rep l k = replaceAux pat rep (l.drop k) 0 := by
  intro l
  induction l with
  | nil => intro k; cases k <;> simp [replaceAux]
  | cons c cs ih =>
    intro k
    cases k with
    | zero => rw [List.drop_zero]
    | succ k' =>
      simp only [replaceAux, List.drop_succ_cons]
      exact ih k'

/-- If the pattern does not occur in the list, one replace pass is the
identity. -/
lemma replaceAux_id (pat rep : List Char) :
    ∀ l, hasSub pat l = false → replaceAux pat rep l 0 = l := by
  intro l
  induction l with
  | nil => intro _; rfl
  | cons c cs ih =>
    intro h
    simp only [hasSub, Bool.or_eq_false_iff, decide_eq_false_iff_not] at h
    simp only [replaceAux]
    rw [if_neg (fun hc => h.1 hc.2), ih h.2]

/-- One replace pass with a replacement at least as long as the pattern
never shortens the list. -/
lemma replaceAux_length_ge (pat rep : List Char) (hlen : pat.length ≤ rep.length) :
    ∀ n l, l.length ≤ n → l.length ≤ (replaceAux pat rep l 0).length := by
  intro n
  induction n with
  | zero =>
    intro l hl
    have hnil : l = [] := List.length_eq_zero.mp (Nat.le_zero.mp hl)
    subst hnil
    simp [replaceAux]
  | succ n ih =>
    intro l hl
    match l with
    | [] => simp [replaceAux]
    | c :: cs =>
      simp only [replaceAux]
      by_cases hc : pat.length ≠ 0 ∧ (c :: cs).take pat.length = pat
      · rw [if_pos hc, replaceAux_skip]
        have h0 : pat.length ≠ 0 := hc.1
        have hple : pat.length ≤ cs.length + 1 := by
          have hlt := congrArg List.length hc.2
          simp only [List.length_take, List.length_cons] at hlt
          omega
        simp only [List.length_cons] at hl
        have hdl : (cs.drop (pat.length - 1)).length ≤ n := by
          simp only [List.length_drop]
          omega
        have htail := ih (cs.drop (pat.length - 1)) hdl
        simp only [List.length_append, List.length_cons, List.length_drop] at htail ⊢
        omega
      · rw [if_neg hc]
        simp only [List.length_cons] at hl ⊢
        have := ih cs (by omega)
        omega

/-- One replace pass with a strictly longer replacement strictly grows
the list as soon as the pattern occurs. -/
lemma replaceAux_length_gt (pat rep : List Char) (h0 : pat.length ≠ 0)
    (hlen : pat.length < rep.length) :
    ∀ n l, l.length ≤ n → hasSub pat l = true →
      l.length < (replaceAux pat rep l 0).length := by
  intro n
  induction n with
  | zero =>
    intro l hl hs
    have hnil : l = [] := List.length_eq_zero.mp (Nat.le_zero.mp hl)
    subst hnil
    simp only [hasSub, decide_eq_true_eq] at hs
    rw [hs] at h0
    exact absurd rfl h0
  | succ n ih =>
    intro l hl hs
    match l with
    | [] =>
      simp only [hasSub, decide_eq_true_eq] at hs
      rw [hs] at h0
      exact absurd rfl h0
    | c :: cs =>
      simp only [replaceAux]
      by_cases hc : pat.length ≠ 0 ∧ (c :: cs).take pat.length = pat
      · rw [if_pos hc, replaceAux_skip]
        have hple : pat.length ≤ cs.length + 1 := by
          have hlt := congrArg List.length hc.2
          simp only [List.length_take, List.length_cons] at hlt
          omega
        simp only [List.length_cons] at hl
        have hdl : (cs.drop (pat.length - 1)).length ≤ n := by
          simp only [List.length_drop]
          omega
        have htail := replaceAux_length_ge pat rep (Nat.le_of_lt hlen) n
          (cs.drop (pat.length - 1)) hdl
        simp only [List.length_append, List.length_cons, List.length_drop] at htail ⊢
        omega
      · rw [if_neg hc]
        have hhead : decide ((c :: cs).take pat.length = pat) = false := by
          refine decide_eq_false ?_
          intro ht
          exact hc ⟨h0, ht⟩
        have hcs : hasSub pat cs = true := by
          simp only [hasSub, hhead, Bool.false_or] at hs
          exact hs
        simp only [List.length_cons] at hl ⊢
        have := ih cs (by omega) hcs
        omega

/-- `pyReplace` leaves a string unchanged when the pattern is absent. -/
lemma pyReplace_id (s pat rep : String) (h : hasSubStr pat s = false) :
    pyReplace s pat rep = s := by
  obtain ⟨l⟩ := s
  simp only [pyReplace]
  rw [replaceAux_id _ _ _ h]

/-- If the original path contains `.png` or `.jpg`, the derived path is
strictly longer than the original, hence a different path. -/
lemma resizedPath_ne (p : String)
    (h : hasSubStr ".png" p = true ∨ hasSubStr ".jpg" p = true) :
    resizedPath p ≠ p := by
  obtain ⟨l⟩ := p
  have key : l.length <
      (replaceAux ".jpg".data "_instagram.jpg".data
        (replaceAux ".png".data "_instagram.png".data l 0) 0).length := by
    by_cases hpng : hasSub ".png".data l = true
    · have h1 : l.length < (replaceAux ".png".data "_instagram.png".data l 0).length :=
        replaceAux_length_gt _ _ (by decide) (by decide) l.length l le_rfl hpng
      have h2 := replaceAux_length_ge ".jpg".data "_instagram.jpg".data (by decide)
        (replaceAux ".png".data "_instagram.png".data l 0).length
        (replaceAux ".png".data "_instagram.png".data l 0) le_rfl
      omega
    · have hpng' : hasSub ".png".data l = false := by
        cases hB : hasSub ".png".data l
        · rfl
        · exact absurd hB hpng
      have hjpg : hasSub ".jpg".data l = true := by
        rcases h with h | h
        · exact absurd h hpng
        · exact h
      rw [replaceAux_id _ _ _ hpng']
      exact replaceAux_length_gt _ _ (by decide) (by decide) l.length l le_rfl hjpg
  intro heq
  have hlen : (resizedPath ⟨l⟩).data.length = l.length := by rw [heq]
  have key' : l.length < (resizedPath ⟨l⟩).data.length := key
  omega

/-- If the original path contains neither `.png` nor `.jpg`, the
"derived" path IS the original path. -/
lemma resizedPath_id (p : String) (h1 : hasSubStr ".png" p = false)
    (h2 : hasSubStr ".jpg" p = false) : resizedPath p = p := by
  unfold resizedPath
  rw [pyReplace_id p _ _ h1, pyReplace_id p _ _ h2]

/-! ### Branch-analysis lemmas for the two workflows -/

/-- In the poster workflow a publish call implies at least one status
query happened first. -/
lemma poster_publish_needs_poll (env : Env) (o : PosterOracle) (ip cap : String) :
    (poster_run env o ip cap).2.publishCalls = 0 ∨
    1 ≤ (poster_run env o ip cap).2.statusCalls := by
  simp only [poster_run]
  repeat' split
  all_goals
    first
      | exact Or.inl rfl
      | (rename_i heq
         right
         have h1 := pollAux_calls_pos o.getStatus 4 0 "" 0 0
         rw [heq] at h1
         simpa using h1)

/-- Every result of the poster workflow carries a boolean `success`. -/
lemma poster_success_bool (env : Env) (o : PosterOracle) (ip cap : String) :
    (poster_run env o ip cap).1.success = some false
    ∨ (poster_run env o ip cap).1.success = some true := by
  simp only [poster_run, publishOutcome]
  repeat' split
  all_goals simp [exnResult]

/-- No result of the generator workflow carries a `success` key. -/
lemma generator_success_none (env : Env) (o : GenOracle) (ip cap : String) :
    (generator_run env o ip cap).1.success = none := by
  simp only [generator_run]
  repeat' split
  all_goals simp [genExnResult]

/-- The caption the poster workflow sends to the container call, when it
sends one, is the defaulted caption. -/
lemma poster_sentCaption (env : Env) (o : PosterOracle) (ip cap : String) :
    (poster_run env o ip cap).2.sentCaption = none
    ∨ (poster_run env o ip cap).2.sentCaption = some (effCaption cap) := by
  simp only [poster_run]
  repeat' split
  all_goals simp

/-- The caption the generator workflow sends to the container call, when
it sends one, is the caller's caption unchanged. -/
lemma generator_sentCaption (env : Env) (o : GenOracle) (ip cap : String) :
    (generator_run env o ip cap).2.sentCaption = none
    ∨ (generator_run env o ip cap).2.sentCaption = some cap := by
  simp only [generator_run]
  repeat' split
  all_goals simp

/-! ### Claim theorems -/

/-- C1: whenever the poster workflow reaches the polling stage
(credentials present, file found, upload returned a URL, container
created), (1) it issues at most 5 status queries; (2) if attempt
`i < 5` is the first to report `FINISHED`, the loop exits immediately —
`i + 1` status queries, `i` two-second sleeps — and the publish call is
still issued exactly once; (3) if all 5 attempts complete without
`FINISHED` (5 queries, 5 two-second sleeps ≈ 10 s), the workflow does
not abort: it issues the publish call exactly once and returns exactly
what that call yields. -/
theorem c1_poll_bounded_timeout_still_publishes
    (env : Env) (o : PosterOracle) (image_path caption0 : String)
    (ha : truthy env.access_token = true)
    (hb : truthy env.business_account_id = true)
    (hip : image_path.isEmpty = false)
    (hex : o.fileExists image_path = true)
    (url : String) (hup : o.upload image_path = .ok (some url))
    (hurl : url.isEmpty = false)
    (cresp : GraphResp)
    (hc : o.createContainer url (effCaption caption0) = .ok cresp)
    (cid : String) (hcid : cresp.id = some cid) :
    (poster_run env o image_path caption0).2.statusCalls ≤ 5
    ∧ (∀ i, i < 5 → (∀ j, j < i → nonFinishedAt o.getStatus j) →
        (∃ v, o.getStatus i = .ok v ∧ v.getD "" = "FINISHED") →
        (poster_run env o image_path caption0).2.statusCalls = i + 1
        ∧ (poster_run env o image_path caption0).2.sleeps = i
        ∧ (poster_run env o image_path caption0).2.publishCalls = 1)
    ∧ ((∀ j, j < 5 → nonFinishedAt o.getStatus j) →
        (poster_run env o image_path caption0).2.statusCalls = 5
        ∧ (poster_run env o image_path caption0).2.sleeps = 5
        ∧ (poster_run env o image_path caption0).2.publishCalls = 1
        ∧ (poster_run env o image_path caption0).1
            = publishOutcome (effCaption caption0) url (o.publishContainer cid)) := by
  have htr : ∀ est calls sleeps, pollAux o.getStatus 0 5 "" 0 0 = (est, calls, sleeps) →
      (poster_run env o image_path caption0).2.statusCalls = calls
      ∧ (poster_run env o image_path caption0).2.sleeps = sleeps
      ∧ ((∃ st, est = .ok st) →
          (poster_run env o image_path caption0).2.publishCalls = 1
          ∧ (poster_run env o image_path caption0).1
              = publishOutcome (effCaption caption0) url (o.publishContainer cid)) := by
    intro est calls sleeps hpoll
    have hsu : truthy (some url) = true := by simp [truthy, hurl]
    cases est with
    | error e =>
      simp [poster_run, ha, hb, hip, hex, hup, hsu, hc, hcid, hpoll]
    | ok st =>
      simp [poster_run, ha, hb, hip, hex, hup, hsu, hc, hcid, hpoll]
  refine ⟨?_, ?_, ?_⟩
  · rcases hpoll : pollAux o.getStatus 0 5 "" 0 0 with ⟨est, calls, sleeps⟩
    have hub := (pollAux_upper o.getStatus 5 0 "" 0 0).1
    rw [hpoll] at hub
    simp only at hub
    have := (htr est calls sleeps hpoll).1
    omega
  · intro i hi hbef hfin
    have hpoll := pollAux_hit o.getStatus i 5 0 "" 0 0 hi
      (fun j hj => by rw [Nat.zero_add]; exact hbef j hj)
      (by rw [Nat.zero_add]; exact hfin)
    obtain ⟨h1, h2, h3⟩ := htr _ _ _ hpoll
    have h4 := h3 ⟨"FINISHED", rfl⟩
    refine ⟨by omega, by omega, h4.1⟩
  · intro hall
    obtain ⟨st, hpoll⟩ := pollAux_exhaust o.getStatus 5 0 "" 0 0
      (fun j hj => by rw [Nat.zero_add]; exact hall j hj)
    obtain ⟨h1, h2, h3⟩ := htr _ _ _ hpoll
    have h4 := h3 ⟨st, rfl⟩
    exact ⟨h1, h2, h4.1, h4.2⟩

/-- C1 witness: a concrete run whose mocked status endpoint never
returns `FINISHED` — 5 queries, 5 sleeps, exactly one publish call,
result = the publish call's outcome. -/
theorem c1_witness :
    (poster_run wEnv slowPosterOracle "a.png" "hi").2.statusCalls = 5
    ∧ (poster_run wEnv slowPosterOracle "a.png" "hi").2.sleeps = 5
    ∧ (poster_run wEnv slowPosterOracle "a.png" "hi").2.publishCalls = 1
    ∧ (poster_run wEnv slowPosterOracle "a.png" "hi").1
        = publishOutcome (effCaption "hi") "https://res.example/u.png"
            (slowPosterOracle.publishContainer "c1") :=
  (c1_poll_bounded_timeout_still_publishes wEnv slowPosterOracle "a.png" "hi"
    (by decide) (by decide) (by decide) rfl "https://res.example/u.png" rfl (by decide)
    ⟨some "c1", none, ""⟩ rfl "c1" rfl).2.2
    (fun j hj => ⟨some "IN_PROGRESS", rfl, by decide⟩)

/-- C2 counterexample: an invocation of the image_generator publish
workflow that issues the publish call — and succeeds end to end — with
zero readiness status checks. -/
theorem c2_counterexample_generator_publishes_without_poll :
    (generator_run wEnv okGenOracle "a.png" "hi").2.publishCalls = 1
    ∧ (generator_run wEnv okGenOracle "a.png" "hi").2.statusCalls = 0
    ∧ (generator_run wEnv okGenOracle "a.png" "hi").1.media_id = some "m1" := by
  refine ⟨by decide, by decide, by decide⟩

/-- C2 amended: in the instagram_poster workflow the publish call is
never issued unless at least one readiness status check on the created
container was attempted first; the image_generator workflow issues the
publish call with zero readiness checks. -/
theorem c2_amended_poster_polls_before_publish
    (env : Env) (o : PosterOracle) (image_path caption : String)
    (h : 0 < (poster_run env o image_path caption).2.publishCalls) :
    1 ≤ (poster_run env o image_path caption).2.statusCalls := by
  rcases poster_publish_needs_poll env o image_path caption with h0 | h1
  · omega
  · exact h1

/-- C2 witness: a concrete poster run that publishes, hence polled. -/
theorem c2_witness :
    1 ≤ (poster_run wEnv slowPosterOracle "b.png" "cap").2.statusCalls :=
  c2_amended_poster_polls_before_publish wEnv slowPosterOracle "b.png" "cap" (by decide)

/-- C3 counterexample: the image_generator workflow's missing-credentials
failure path returns a record with no `success` key at all, not one with
`success = false`. -/
theorem c3_counterexample_generator_failure_lacks_success :
    (generator_run noTokenEnv okGenOracle "a.png" "hi").1.post_status
      = "Missing Instagram API credentials."
    ∧ (generator_run noTokenEnv okGenOracle "a.png" "hi").1.success ≠ some false := by
  refine ⟨by decide, by decide⟩

/-- C3 amended: neither workflow ever raises — both are total functions
into result records (every oracle exception is caught and mapped to an
`Exception: …` record); in instagram_poster every returned record
carries a boolean `success` (false on every failure path, true on
success), while image_generator records omit the `success` key on every
path, so its failures are not marked `success = false`. -/
theorem c3_amended_always_returns_record
    (env : Env) (po : PosterOracle) (go : GenOracle) (ip cap : String) :
    ((poster_run env po ip cap).1.success = some false
      ∨ (poster_run env po ip cap).1.success = some true)
    ∧ (generator_run env go ip cap).1.success = none :=
  ⟨poster_success_bool env po ip cap, generator_success_none env go ip cap⟩

/-- C4 counterexample: an image_generator result that contains a
`media_id` yet no `success` field (so "boolean success present, true iff
media_id present" fails on the repository's second publish workflow). -/
theorem c4_counterexample_generator_media_id_without_success :
    (generator_run wEnv okGenOracle "b.png" "cap").1.media_id = some "m1"
    ∧ (generator_run wEnv okGenOracle "b.png" "cap").1.success ≠ some true := by
  refine ⟨by decide, by decide⟩

/-- C4 amended: in the instagram_poster workflow every result carries a
boolean `success`, and `success = true` iff a `media_id` is present in
the record; image_generator results omit the `success` key even when a
`media_id` is present. -/
theorem c4_amended_poster_success_iff_media_id
    (env : Env) (o : PosterOracle) (ip cap : String) :
    (poster_run env o ip cap).1.success = some true
      ↔ (poster_run env o ip cap).1.media_id.isSome = true := by
  simp only [poster_run, publishOutcome]
  repeat' split
  all_goals simp [exnResult]

/-- C5: if either required credential is absent (or blank), both publish
workflows immediately return the missing-credentials record; the trace
is empty — zero network calls (no upload, container, status, or publish
call) and no file effects. -/
theorem c5_missing_credentials_no_network
    (env : Env) (po : PosterOracle) (go : GenOracle) (ip cap : String)
    (h : truthy env.access_token = false ∨ truthy env.business_account_id = false) :
    (poster_run env po ip cap).1.post_status = "Missing Instagram API credentials."
    ∧ (poster_run env po ip cap).1.success = some false
    ∧ (poster_run env po ip cap).2 = {}
    ∧ networkCalls (poster_run env po ip cap).2 = 0
    ∧ (generator_run env go ip cap).1.post_status = "Missing Instagram API credentials."
    ∧ (generator_run env go ip cap).2 = {}
    ∧ networkCalls (generator_run env go ip cap).2 = 0 := by
  have hcond : (!truthy env.access_token || !truthy env.business_account_id) = true := by
    rcases h with h | h <;> simp [h]
  simp [poster_run, generator_run, hcond, networkCalls]

/-- C5 witness: concrete missing-token environment. -/
theorem c5_witness :
    (poster_run noTokenEnv slowPosterOracle "a.png" "hi").1.post_status
      = "Missing Instagram API credentials."
    ∧ networkCalls (generator_run noTokenEnv okGenOracle "a.png" "hi").2 = 0 := by
  have h := c5_missing_credentials_no_network noTokenEnv slowPosterOracle okGenOracle
    "a.png" "hi" (Or.inl rfl)
  exact ⟨h.1, h.2.2.2.2.2.2⟩

/-- C6: for any image dimensions W, H > 0 the normalizer computes
`m = min(W, H)`, crops the centered m × m square with
`left = (W − m) / 2` and `top = (H − m) / 2` (integer division) and crop
box `[left, top, left + m, top + m]`, resizes to exactly 1080×1080, and
when W = H the crop box is the full original frame `(0, 0, W, H)`. -/
theorem c6_crop_geometry (W H : Nat) (hW : 0 < W) (hH : 0 < H) :
    cropBox W H = ((W - min W H) / 2, (H - min W H) / 2,
      (W - min W H) / 2 + min W H, (H - min W H) / 2 + min W H)
    ∧ instagramSize = (1080, 1080)
    ∧ (W = H → cropBox W H = (0, 0, W, H)) := by
  refine ⟨rfl, rfl, ?_⟩
  rintro rfl
  simp [cropBox, min_dimension]

/-- C6 witness: a square 1080×1080 input crops to the full frame. -/
theorem c6_witness : cropBox 1080 1080 = (0, 0, 1080, 1080) :=
  (c6_crop_geometry 1080 1080 (by decide) (by decide)).2.2 rfl

/-- C7: the failing input.  For an original path containing neither
`.png` nor `.jpg` (e.g. `photo.webp`) the suffix-substitution produces
the ORIGINAL path, so `img_resized.save` writes over the input file:
the derived asset is not persisted at a new, distinct path, and the
original is overwritten — contradicting the code's own
`# Save to new file` comment and the spec. -/
theorem c7_resize_overwrites_non_png_jpg_input :
    resizedPath "photo.webp" = "photo.webp"
    ∧ (resize_for_instagram (fun _ => .ok (800, 600)) (fun _ => .ok ())
        "photo.webp").path = "photo.webp"
    ∧ (resize_for_instagram (fun _ => .ok (800, 600)) (fun _ => .ok ())
        "photo.webp").saved = ["photo.webp"] := by
  refine ⟨by decide, by decide, by decide⟩

/-- C8 counterexample: a run whose publish call fails (no id in the
response) reaches a failure terminal state with a derived file created
(`a_instagram.png` was written) but no deletion attempted. -/
theorem c8_counterexample_failure_path_skips_cleanup :
    (generator_run wEnv failPublishGenOracle "a.png" "hi").1.post_status
      = "Publish failed: Media ID is not available"
    ∧ (generator_run wEnv failPublishGenOracle "a.png" "hi").2.savedPaths
      = ["a_instagram.png"]
    ∧ (generator_run wEnv failPublishGenOracle "a.png" "hi").2.removeAttempts = 0
    ∧ (generator_run wEnv failPublishGenOracle "a.png" "hi").2.removedPaths = [] := by
  refine ⟨by decide, by decide, by decide, by decide⟩

/-- C8 amended: the derived file is cleaned up only on the SUCCESS
terminal state: every path returning no `media_id` attempts no deletion;
on the success path, exactly when the derived path differs from the
original and still exists, one deletion is attempted, and the file is
removed iff `os.remove` does not raise (a raising `os.remove` is
swallowed: the attempt still counts and the success record is still
returned). -/
theorem c8_amended_cleanup_only_on_success
    (env : Env) (o : GenOracle) (ip cap : String) :
    ((generator_run env o ip cap).1.media_id = none →
      (generator_run env o ip cap).2.removeAttempts = 0
      ∧ (generator_run env o ip cap).2.removedPaths = [])
    ∧ ((generator_run env o ip cap).1.media_id ≠ none →
      (generator_run env o ip cap).2.removeAttempts
        = (if (resize_for_instagram o.openImage o.save ip).path != ip
              && o.fileExists (resize_for_instagram o.openImage o.save ip).path
           then 1 else 0)
      ∧ (generator_run env o ip cap).2.removedPaths
        = (if ((resize_for_instagram o.openImage o.save ip).path != ip
                && o.fileExists (resize_for_instagram o.openImage o.save ip).path)
                && !o.removeRaises (resize_for_instagram o.openImage o.save ip).path
           then [(resize_for_instagram o.openImage o.save ip).path] else [])) := by
  simp only [generator_run]
  repeat' split
  all_goals simp_all [genExnResult]

/-- C8 witness: concrete successful run — the derived file
`a_instagram.png` is distinct from the original and gets removed. -/
theorem c8_witness :
    (generator_run wEnv okGenOracle "a.png" "hi").2.removeAttempts
      = (if (resize_for_instagram okGenOracle.openImage okGenOracle.save "a.png").path
              != "a.png"
            && okGenOracle.fileExists
                (resize_for_instagram okGenOracle.openImage okGenOracle.save "a.png").path
         then 1 else 0) :=
  ((c8_amended_cleanup_only_on_success wEnv okGenOracle "a.png" "hi").2 (by decide)).1

/-- C9 counterexample: the image_generator workflow sends a blank
caption to the container-creation network call unchanged instead of
substituting the default caption. -/
theorem c9_counterexample_generator_sends_blank_caption :
    (generator_run wEnv okGenOracle "a.png" "").2.sentCaption = some ""
    ∧ ("" : String) ≠ POSTER_DEFAULT_CAPTION := by
  refine ⟨by decide, by decide⟩

/-- C9 amended: in the instagram_poster workflow a blank (empty or
all-whitespace) caption is replaced by the fixed default caption before
any network call — any caption reaching the container payload is the
default; the image_generator workflow forwards the caller's caption
unchanged, blank included. -/
theorem c9_amended_caption_defaulting
    (env : Env) (po : PosterOracle) (go : GenOracle) (ip cap : String)
    (hblank : pyBlank cap = true) :
    ((poster_run env po ip cap).2.sentCaption = none
      ∨ (poster_run env po ip cap).2.sentCaption = some POSTER_DEFAULT_CAPTION)
    ∧ ((generator_run env go ip cap).2.sentCaption = none
      ∨ (generator_run env go ip cap).2.sentCaption = some cap) := by
  have heff : effCaption cap = POSTER_DEFAULT_CAPTION := by
    simp [effCaption, hblank]
  constructor
  · rcases poster_sentCaption env po ip cap with h | h
    · exact Or.inl h
    · rw [heff] at h
      exact Or.inr h
  · exact generator_sentCaption env go ip cap

/-- C9 witness: a concrete poster run with an all-whitespace caption
sends the default caption to the container call. -/
theorem c9_witness :
    (poster_run wEnv slowPosterOracle "a.png" "   ").2.sentCaption = none
    ∨ (poster_run wEnv slowPosterOracle "a.png" "   ").2.sentCaption
        = some POSTER_DEFAULT_CAPTION :=
  (c9_amended_caption_defaulting wEnv slowPosterOracle okGenOracle "a.png" "   "
    (by decide)).1

/-- C10: `initialize_firebase` raises instead of returning a structured
failure: with no app initialized it raises `FileNotFoundError` when no
key file exists at the Render secret path or the local fallback path,
and raises `ValueError` when a key file exists but
`FIREBASE_STORAGE_BUCKET` is unset — in that order (no key file wins
regardless of the bucket); with an app already initialized the call is
an idempotent no-op: no path checks and no effects. -/
theorem c10_initialize_firebase_raises (w : FbWorld) :
    (w.appsInitialized = true → initialize_firebase w = .ok {})
    ∧ (w.appsInitialized = false →
        w.pathExists RENDER_SECRET_PATH = false →
        w.pathExists (fbLocalPath w) = false →
        initialize_firebase w = .error (.fileNotFound (fbKeyMissingMsg w)))
    ∧ (w.appsInitialized = false →
        (w.pathExists RENDER_SECRET_PATH = true ∨ w.pathExists (fbLocalPath w) = true) →
        w.envStorageBucket = none →
        initialize_firebase w = .error (.valueError FB_BUCKET_ERROR_MSG)) := by
  refine ⟨?_, ?_, ?_⟩
  · intro h
    simp [initialize_firebase, h]
  · intro h1 h2 h3
    simp [initialize_firebase, h1, h2, h3]
  · intro h1 h2 h3
    by_cases hr : w.pathExists RENDER_SECRET_PATH
    · simp [initialize_firebase, fbFinish, h1, hr, h3, truthy]
    · rcases h2 with h2 | h2
      · exact absurd h2 hr
      · simp [initialize_firebase, fbFinish, h1, hr, h2, h3, truthy]

/-- C10 witness: with an app already initialized the call is a no-op;
with no app, no key file and no bucket it raises `FileNotFoundError`
(not `ValueError`). -/
theorem c10_witness :
    initialize_firebase fbInitializedWorld = .ok {}
    ∧ initialize_firebase fbNoKeyWorld
        = .error (.fileNotFound (fbKeyMissingMsg fbNoKeyWorld))
    ∧ initialize_firebase fbNoBucketWorld = .error (.valueError FB_BUCKET_ERROR_MSG) :=
  ⟨(c10_initialize_firebase_raises fbInitializedWorld).1 rfl,
   (c10_initialize_firebase_raises fbNoKeyWorld).2.1 rfl rfl rfl,
   (c10_initialize_firebase_raises fbNoBucketWorld).2.2 rfl (Or.inl rfl) rfl⟩
